import Mathlib

/-
  Verification of the DataPipeline repository (src/app.py, src/config.py,
  src/script_manager.py) against its natural-language specification.

  The embedding is shallow: spreadsheet sheets are lists of rows of cells
  (0-based indices in Lean correspond to the 1-based row/column numbers of
  openpyxl, so Lean index i models spreadsheet row i+1); the file system is
  an association list from path strings to file contents; the socketio event
  stream is a list of events returned by each operation.  Environmental
  effects that the Python code delegates to the OS (whether shutil.copy2
  succeeds, which exception text the OS produces) are parameters of the
  embedded functions and are documented at each definition.
-/

/-- A spreadsheet cell value, as seen through openpyxl with values_only:
`empty` models a None value, `str`, `int` model ordinary values, and
`date` models a datetime.datetime value (day, month, year — the fields
used by strftime with the %d/%m/%Y format string). -/
inductive Cell where
  | empty : Cell
  | str (s : String) : Cell
  | int (n : Int) : Cell
  | date (d m y : Nat) : Cell
deriving DecidableEq, Repr

/-- Zero-padding to two digits, as strftime %d and %m produce. -/
def fmt2 (n : Nat) : String :=
  if n < 10 then "0" ++ toString n else toString n

/-- The per-cell date formatting appearing in both transfer operations
(script_manager.py lines 153 and 176):
`value.strftime('%d/%m/%Y') if isinstance(value, datetime) else value`.
Date cells become their dd/mm/yyyy string; all other values pass through. -/
def fmtCell : Cell → Cell
  | Cell.date d m y => Cell.str (fmt2 d ++ "/" ++ fmt2 m ++ "/" ++ toString y)
  | c => c

/-- A sheet is a list of rows, each a list of cells.  Row i (0-based)
models spreadsheet row i+1; a missing entry models an empty cell. -/
abbrev Sheet : Type := List (List Cell)

/-- List lookup with a default, used to read a cell grid: positions beyond
the stored lists read as the default (openpyxl reads unset cells as None). -/
def nthD {α : Type} : List α → Nat → α → α
  | [], _, d => d
  | a :: _, 0, _ => a
  | _ :: t, n + 1, d => nthD t n d

/-- The value of the cell at 0-based row i, column j
(models `sheet.cell(row=i+1, column=j+1).value`). -/
def cellv (s : Sheet) (i j : Nat) : Cell :=
  nthD (nthD s i []) j Cell.empty

/-- Set the cell at 0-based column j of a single row, extending the row
with empty cells if needed (openpyxl materialises intermediate cells). -/
def setCellRow : List Cell → Nat → Cell → List Cell
  | [], 0, v => [v]
  | [], j + 1, v => Cell.empty :: setCellRow [] j v
  | _ :: t, 0, v => v :: t
  | c :: t, j + 1, v => c :: setCellRow t j v

/-- Set the cell at 0-based row i, column j of a sheet, extending the sheet
with empty rows if needed
(models `sheet.cell(row=i+1, column=j+1, value=v)`). -/
def setCellv : Sheet → Nat → Nat → Cell → Sheet
  | [], 0, j, v => [setCellRow [] j v]
  | [], i + 1, j, v => [] :: setCellv [] i j v
  | r :: t, 0, j, v => setCellRow r j v :: t
  | r :: t, i + 1, j, v => r :: setCellv t i j v

/-- max_column of a sheet: the width of its widest row. -/
def maxWidth (s : Sheet) : Nat :=
  s.foldr (fun r m => max r.length m) 0

/-- Pad a row with empty cells up to width w (iter_rows with values_only
yields every row padded with None to the sheet dimension). -/
def padTo (row : List Cell) (w : Nat) : List Cell :=
  row ++ List.replicate (w - row.length) Cell.empty

/-- `sheet.iter_rows(values_only=True)`: all rows, each padded to the sheet
width. -/
def iterRowsVals (s : Sheet) : List (List Cell) :=
  s.map (fun r => padTo r (maxWidth s))

/-- Length of the leading run of non-empty cells. -/
def leadingNonEmpty : List Cell → Nat
  | [] => 0
  | c :: t => if c = Cell.empty then 0 else leadingNonEmpty t + 1

/-- Column 1 of a sheet as a list of values. -/
def col0 (s : Sheet) : List Cell :=
  s.map (fun r => nthD r 0 Cell.empty)

/-- The 0-based index of the first row whose column-1 cell is empty.  This
embeds the scan of script_manager.py lines 147-149:
`next_row = 1; while destination_sheet.cell(row=next_row, column=1).value
is not None: next_row += 1` — the loop terminates at 1-based row
firstEmptyIdx + 1. -/
def firstEmptyIdx (s : Sheet) : Nat :=
  leadingNonEmpty (col0 s)

/-- Write one source row into a destination sheet at 0-based row i starting
at 0-based column j, formatting each value (script_manager.py lines
152-154: the inner `for col_index, value in enumerate(row, start=1)` loop). -/
def writeRow0 (i : Nat) : Sheet → Nat → List Cell → Sheet
  | s, _, [] => s
  | s, j, v :: vs => writeRow0 i (setCellv s i j (fmtCell v)) (j + 1) vs

/-- Write a list of source rows into a destination sheet at consecutive
0-based rows starting at i (script_manager.py lines 151-155: the outer
`for row in source_sheet.iter_rows(min_row=2, values_only=True)` loop). -/
def appendRows0 : Sheet → Nat → List (List Cell) → Sheet
  | s, _, [] => s
  | s, i, row :: rest => appendRows0 (writeRow0 i s 0 row) (i + 1) rest

/-- The sheet-level effect of `_execute_same_sheet_transfer`
(script_manager.py lines 139-163): find the first empty row of the
destination by the column-1 scan, then copy every source row except the
header (min_row=2) into consecutive rows, formatting date cells. -/
def sameSheetTransfer (src dst : Sheet) : Sheet :=
  appendRows0 dst (firstEmptyIdx dst) ((iterRowsVals src).drop 1)

/-- The rows written by `_execute_different_sheet_transfer`
(script_manager.py lines 175-177): every source row including the header,
in order, each value formatted
(`destination_sheet.append(formatted_row)` for each iter_rows row). -/
def differentSheetRows (src : Sheet) : Sheet :=
  (iterRowsVals src).map (fun row => row.map fmtCell)

/-- A workbook: its sheets in order, each with its title.  The active sheet
of a workbook loaded by openpyxl is its first sheet (the default active
index is 0); every workbook produced by openpyxl has at least one sheet. -/
structure Workbook where
  sheets : List (String × Sheet)
deriving DecidableEq

/-- `workbook.active` — the first sheet (loaded workbooks are never
sheet-less; the default is only reached from an unreachable state). -/
def Workbook.active (w : Workbook) : Sheet :=
  ((w.sheets.head?).map (fun p => p.2)).getD []

/-- Whether the workbook has a sheet with the given title. -/
def Workbook.hasSheet (w : Workbook) (n : String) : Bool :=
  w.sheets.any (fun p => p.1 == n)

/-- Modelled from the spec: the spreadsheet library call
`destination_workbook.create_sheet(title=new_sheet_name)` used at
script_manager.py line 173.  The library itself (openpyxl) is not part of
this repository; the spec states its contract as "creates a new sheet named
Transferred Data in the destination workbook (fails if the sheet name
already exists)" and "running it twice ... must raise a write failure
(duplicate sheet name), not silently overwrite".  The model therefore
returns an error when the title is already present, and otherwise appends
a sheet with that title holding the given rows. -/
def Workbook.createSheet (w : Workbook) (n : String) (content : Sheet) :
    Except String Workbook :=
  if w.hasSheet n then
    Except.error ("Sheet " ++ n ++ " already exists")
  else
    Except.ok (Workbook.mk (w.sheets ++ [(n, content)]))

/-- Replace the contents of the active (first) sheet. -/
def Workbook.setActive (w : Workbook) (s : Sheet) : Workbook :=
  match w.sheets with
  | [] => w
  | p :: t => Workbook.mk ((p.1, s) :: t)

/-- A file system fragment: an association list from path to file content.
A path present in the list models an existing file (os.path.exists true);
looking up an absent path models a FileNotFoundError on open. -/
abbrev FS (α : Type) : Type := List (String × α)

/-- Read the file at a path, none if no file exists there. -/
def lookupFS {α : Type} : FS α → String → Option α
  | [], _ => none
  | (q, w) :: t, p => if q = p then some w else lookupFS t p

/-- Write content at a path: overwrite the existing entry, or create the
file at the end of the listing. -/
def setFS {α : Type} : FS α → String → α → FS α
  | [], p, v => [(p, v)]
  | (q, w) :: t, p, v => if q = p then (p, v) :: t else (q, w) :: setFS t p v

/-- `_execute_same_sheet_transfer` (script_manager.py lines 139-163) at the
file level: load the source workbook from the new-data path and the
destination workbook from the base path (an absent file makes
load_workbook raise, which the method re-raises), apply the sheet-level
transfer to the two active sheets, and save the destination workbook back
to the base path.  The source workbook is only read. -/
def execute_same_sheet_transfer (basePath newDataPath : String)
    (fs : FS Workbook) : Except String (FS Workbook) :=
  match lookupFS fs newDataPath with
  | none => Except.error ("No such file or directory: " ++ newDataPath)
  | some srcWb =>
    match lookupFS fs basePath with
    | none => Except.error ("No such file or directory: " ++ basePath)
    | some dstWb =>
      Except.ok (setFS fs basePath
        (dstWb.setActive (sameSheetTransfer srcWb.active dstWb.active)))

/-- `_execute_different_sheet_transfer` (script_manager.py lines 165-185)
at the file level: load source and destination, create the sheet named
"Transferred Data" filled with every formatted source row, and save the
destination workbook to the base path.  A failure (missing file or
duplicate sheet title) is re-raised and nothing is saved. -/
def execute_different_sheet_transfer (basePath newDataPath : String)
    (fs : FS Workbook) : Except String (FS Workbook) :=
  match lookupFS fs newDataPath with
  | none => Except.error ("No such file or directory: " ++ newDataPath)
  | some srcWb =>
    match lookupFS fs basePath with
    | none => Except.error ("No such file or directory: " ++ basePath)
    | some dstWb =>
      match dstWb.createSheet "Transferred Data"
          (differentSheetRows srcWb.active) with
      | Except.error e => Except.error e
      | Except.ok w2 => Except.ok (setFS fs basePath w2)

/-- `_execute_excel_macro` (script_manager.py lines 123-137), named with a
`_step` suffix here: loads the workbook at the base path (keep_vba
preserves embedded macro content, which the workbook value carries along
unchanged), performs no semantic change, and saves the same workbook back
to the same path.  Fails only when the file is missing. -/
def execute_excel_macro_step (basePath : String) (fs : FS Workbook) :
    Except String (FS Workbook) :=
  match lookupFS fs basePath with
  | none => Except.error ("No such file or directory: " ++ basePath)
  | some wb => Except.ok (setFS fs basePath wb)

/-- A pipeline step record (id and display name; the function field of the
Python dict is fixed per id, so it is represented by id-indexed dispatch
rather than stored here). -/
structure Step where
  id : String
  name : String
deriving DecidableEq, Repr

/-- The socketio events emitted by ScriptManager. -/
inductive Event where
  | step_start (stepId : String) : Event
  | step_complete (stepId : String) : Event
  | step_error (stepId : String) (msg : String) : Event
  | pipeline_complete (outputFile : String) : Event
  | pipeline_error (msg : String) : Event
deriving DecidableEq, Repr

/-- The mutable fields of ScriptManager (script_manager.py lines 13-39):
the three paths (None until the first upload) and the ordered step list. -/
structure SMState where
  base_sheet_path : Option String
  new_data_sheet_path : Option String
  output_file_path : Option String
  pipeline_steps : List Step
deriving DecidableEq, Repr

/-- The keys of self.step_functions (script_manager.py lines 18-22), in
construction order. -/
def knownStepIds : List String :=
  ["different_sheet_transfer", "excel_macro", "same_sheet_transfer"]

/-- self.pipeline_steps as constructed (script_manager.py lines 23-39). -/
def defaultSteps : List Step :=
  [Step.mk "different_sheet_transfer" "Transfer to New Sheet",
   Step.mk "excel_macro" "Execute Excel Macro",
   Step.mk "same_sheet_transfer" "Append to Base Sheet"]

/-- A fresh ScriptManager: no paths yet, default step order. -/
def initialSMState : SMState :=
  SMState.mk none none none defaultSteps

/-- Insert a step into an already-processed list, after every element whose
key is less than or equal to its own (so elements with equal keys keep
their original relative order). -/
def insertByKey (key : Step → Nat) (x : Step) : List Step → List Step
  | [] => [x]
  | y :: ys => if key x < key y then x :: y :: ys else y :: insertByKey key x ys

/-- Stable sort by a numeric key, embedding Python `list.sort(key=...)`
(CPython list.sort is stable). -/
def sortByKey (key : Step → Nat) (l : List Step) : List Step :=
  l.foldl (fun acc x => insertByKey key x acc) []

/-- `self.pipeline_steps.sort(key=lambda x: step_order.index(x['id']))`
(script_manager.py lines 71 and 117).  Callers only reach this with every
step id present in step_order (otherwise .index raises ValueError and
CPython leaves the list unchanged; the callers below model that branch
explicitly). -/
def sortByOrder (stepOrder : List String) (l : List Step) : List Step :=
  sortByKey (fun s => stepOrder.indexOf s.id) l

/-- ScriptManager.update_pipeline_config (script_manager.py lines 108-121):
validate every requested id against step_functions; an unknown id raises
ValueError("Invalid step ID in configuration"), which the except block
turns into a False return with the list untouched.  A valid request whose
list omits one of the three step ids makes the sort key raise ValueError,
also caught (False, list untouched, since CPython computes all sort keys
before mutating the list).  Otherwise the list is sorted in place and True
is returned. -/
def update_pipeline_config (st : SMState) (stepOrder : List String) :
    Bool × SMState :=
  if stepOrder.all (fun sid => knownStepIds.contains sid) then
    if st.pipeline_steps.all (fun p => stepOrder.contains p.id) then
      (true, SMState.mk st.base_sheet_path st.new_data_sheet_path
        st.output_file_path (sortByOrder stepOrder st.pipeline_steps))
    else (false, st)
  else (false, st)

/-- pipeline_steps[0].id (script_manager.py line 64); the step list of the
manager is never empty, so the default is unreachable. -/
def firstStepId (st : SMState) : String :=
  match st.pipeline_steps with
  | [] => ""
  | p :: _ => p.id

/-- ScriptManager.execute_pipeline (script_manager.py lines 60-72).
The result is (propagated exception, events emitted synchronously, new
manager state, whether the background thread was started).  If either path
is absent, a single step_error naming the first step of the current order
is emitted and no thread starts.  Otherwise, when a non-empty step_order is
given (`if step_order:` is false for None and for an empty list), the step
list is sorted by position in step_order with no validation: if some step
id is missing from step_order the sort key raises ValueError which
propagates out of execute_pipeline uncaught (list untouched, no thread);
otherwise the reorder is applied and the thread starts. -/
def execute_pipeline (st : SMState) (stepOrder : Option (List String)) :
    Option String × List Event × SMState × Bool :=
  match st.base_sheet_path, st.new_data_sheet_path with
  | some _, some _ =>
    match stepOrder with
    | some order =>
      if order.isEmpty then (none, [], st, true)
      else if st.pipeline_steps.all (fun p => order.contains p.id) then
        (none, [], SMState.mk st.base_sheet_path st.new_data_sheet_path
          st.output_file_path (sortByOrder order st.pipeline_steps), true)
      else (some "ValueError: is not in list", [], st, false)
    | none => (none, [], st, true)
  | _, _ =>
    (none,
     [Event.step_error (firstStepId st)
        "Please upload both Excel files before running the pipeline"],
     st, false)

/-- The step loop of ScriptManager._run_pipeline (script_manager.py lines
76-87), generic in the state σ the steps act on and in the behaviour
`exec` of each step (instantiated with the workbook file system and the
real step dispatch, or with an arbitrary environment to quantify over all
possible step outcomes).  Per step: emit step_start, run the operation; on
success emit step_complete and continue, on failure emit step_error and
return (the Bool result is whether every step completed). -/
def runSteps {σ : Type} (exec : String → σ → Except String σ) :
    List Step → σ → List Event × σ × Bool
  | [], s => ([], s, true)
  | stp :: rest, s =>
    match exec stp.id s with
    | Except.ok s2 =>
      let r := runSteps exec rest s2
      (Event.step_start stp.id :: Event.step_complete stp.id :: r.1,
       r.2.1, r.2.2)
    | Except.error m =>
      ([Event.step_start stp.id, Event.step_error stp.id m], s, false)

/-- ScriptManager._run_pipeline (script_manager.py lines 74-106): run the
steps; if and only if all of them completed, move to the output-copy
stage: when os.path.exists(base_sheet_path) is false emit pipeline_error,
otherwise copy2 the base file to the output path — emitting
pipeline_complete with the output file basename on success and
pipeline_error on a copy failure.  existsBase and doCopy are the
environment effects of os.path.exists and shutil.copy2. -/
def run_pipeline {σ : Type} (steps : List Step)
    (exec : String → σ → Except String σ) (s : σ)
    (existsBase : σ → Bool) (doCopy : σ → Except String σ)
    (outName : String) : List Event × σ :=
  let r := runSteps exec steps s
  if r.2.2 then
    if existsBase r.2.1 then
      match doCopy r.2.1 with
      | Except.ok s2 => (r.1 ++ [Event.pipeline_complete outName], s2)
      | Except.error m =>
        (r.1 ++ [Event.pipeline_error ("Failed to generate output file: " ++ m)],
         r.2.1)
    else (r.1 ++ [Event.pipeline_error "Failed to generate output file"], r.2.1)
  else (r.1, r.2.1)

/-- The step ids carried by the step_start events of a trace. -/
def stepStarts (evs : List Event) : List String :=
  evs.filterMap (fun e =>
    match e with
    | Event.step_start sid => some sid
    | _ => none)

/-- os.path.basename for slash-separated paths: the suffix after the last
slash (scanning the characters, restarting the accumulator at each
slash). -/
def pathBasename (p : String) : String :=
  String.mk (p.data.foldl (fun acc c => if c = '/' then [] else acc ++ [c]) [])

/-- ScriptManager.update_file_paths (script_manager.py lines 41-58) over a
byte-level file system (file content as a string of bytes).  If a file
exists at the incoming base path, a backup named
backup_<timestamp>_<basename> is copied into the backups folder first
(BACKUP_FOLDER = "backups", config.py); ts is the strftime
%Y%m%d_%H%M%S timestamp, and copyOk models whether shutil.copy2 succeeds.
A failed copy is logged and re-raised (first component some error) before
any of the three path fields is assigned; otherwise the three paths are
assigned, with output_file_path = output/processed_<basename>
(OUTPUT_FOLDER = "output", config.py). -/
def update_file_paths (st : SMState) (basePath newDataPath : String)
    (fs : FS String) (ts : String) (copyOk : Bool) :
    Option String × SMState × FS String :=
  match lookupFS fs basePath with
  | some content =>
    if copyOk then
      (none,
       SMState.mk (some basePath) (some newDataPath)
         (some ("output/" ++ ("processed_" ++ pathBasename basePath)))
         st.pipeline_steps,
       setFS fs ("backups/" ++ ("backup_" ++ ts ++ "_" ++ pathBasename basePath))
         content)
    else (some "backup copy failed", st, fs)
  | none =>
    (none,
     SMState.mk (some basePath) (some newDataPath)
       (some ("output/" ++ ("processed_" ++ pathBasename basePath)))
       st.pipeline_steps,
     fs)

/-- The file-saving tail of the upload handler (app.py lines 48-59):
secure_filename is an external collaborator and is assumed to have already
produced the two (sanitised) file names; the handler saves the base sheet
to uploads/<baseName>, saves the new data sheet to uploads/<newName>
(UPLOAD_FOLDER = "uploads", config.py), and only then calls
update_file_paths on the two saved paths.  The saves happen before the
path update, so any file previously at either path is already overwritten
when update_file_paths runs. -/
def upload_files (st : SMState) (fs : FS String)
    (baseName newName baseContent newContent ts : String) (copyOk : Bool) :
    Option String × SMState × FS String :=
  let basePath := "uploads/" ++ baseName
  let newPath := "uploads/" ++ newName
  let fs1 := setFS fs basePath baseContent
  let fs2 := setFS fs1 newPath newContent
  update_file_paths st basePath newPath fs2 ts copyOk

theorem lookupFS_setFS_self {α : Type} (fs : FS α) (p : String) (v : α) :
    lookupFS (setFS fs p v) p = some v := by
  induction fs with
  | nil => simp [setFS, lookupFS]
  | cons hd t ih =>
    obtain ⟨q, w⟩ := hd
    by_cases hq : q = p
    · simp [setFS, lookupFS, hq]
    · simp [setFS, lookupFS, hq, ih]

theorem lookupFS_setFS_ne {α : Type} (fs : FS α) (p p2 : String) (v : α)
    (hne : p2 ≠ p) : lookupFS (setFS fs p v) p2 = lookupFS fs p2 := by
  have hne2 : ¬ p = p2 := fun h => hne h.symm
  induction fs with
  | nil => simp [setFS, lookupFS, hne2]
  | cons hd t ih =>
    obtain ⟨q, w⟩ := hd
    by_cases hq : q = p
    · subst hq
      simp [setFS, lookupFS, hne2]
    · simp [setFS, lookupFS, hq, ih]

/-- C9: a backup-copy failure in update_file_paths propagates out of the
call (the exception is re-raised by the except block at script_manager.py
lines 56-58) and none of base_sheet_path, new_data_sheet_path,
output_file_path is assigned: the path assignments at lines 52-54 come
after the copy2 call at line 49, so on failure the returned manager state
and file system are exactly the ones passed in. -/
theorem C9_backup_failure_propagates_leaves_state (st : SMState)
    (basePath newDataPath : String) (fs : FS String) (ts : String)
    (c : String) (hex : lookupFS fs basePath = some c) :
    update_file_paths st basePath newDataPath fs ts false =
      (some "backup copy failed", st, fs) := by
  simp [update_file_paths, hex]

theorem C9_backup_failure_propagates_leaves_state_witness :
    lookupFS [("uploads/b.xlsx", "OLD")] "uploads/b.xlsx" = some "OLD" ∧
    update_file_paths initialSMState "uploads/b.xlsx" "uploads/n.xlsx"
        [("uploads/b.xlsx", "OLD")] "20240101_120000" false =
      (some "backup copy failed", initialSMState, [("uploads/b.xlsx", "OLD")]) :=
  ⟨by decide,
   C9_backup_failure_propagates_leaves_state initialSMState "uploads/b.xlsx"
     "uploads/n.xlsx" [("uploads/b.xlsx", "OLD")] "20240101_120000" "OLD"
     (by decide)⟩

/-- C6: when either path is still absent at the moment a run is requested,
execute_pipeline (script_manager.py lines 62-67) emits exactly one
step_error event, which names the first step of the current order, raises
nothing, leaves the manager state untouched and starts no background
thread — so no step_start or step_complete can ever follow for that
request. -/
theorem C6_missing_input_single_error_no_thread (st : SMState)
    (stepOrder : Option (List String))
    (h : st.base_sheet_path = none ∨ st.new_data_sheet_path = none) :
    execute_pipeline st stepOrder =
      (none,
       [Event.step_error (firstStepId st)
          "Please upload both Excel files before running the pipeline"],
       st, false) := by
  obtain ⟨b, n, o, ps⟩ := st
  rcases h with h | h
  · simp only at h
    subst h
    simp [execute_pipeline]
  · simp only at h
    subst h
    cases b <;> simp [execute_pipeline]

theorem C6_missing_input_single_error_no_thread_witness :
    ((initialSMState.base_sheet_path = none ∨
      initialSMState.new_data_sheet_path = none) ∧
     execute_pipeline initialSMState none =
      (none,
       [Event.step_error "different_sheet_transfer"
          "Please upload both Excel files before running the pipeline"],
       initialSMState, false)) :=
  ⟨Or.inl rfl,
   C6_missing_input_single_error_no_thread initialSMState none (Or.inl rfl)⟩

/-- C7: when every step completed (the runSteps flag is true), the runner
reaches the output-copy stage of _run_pipeline (script_manager.py lines
89-106): it checks that the base file exists; if it does and the copy to
the output path succeeds, pipeline_complete carrying the output file name
is appended to the trace; if the file is missing, or the copy fails,
pipeline_error is emitted instead — even though every step reported
success. -/
theorem C7_output_stage_after_success {σ : Type} (steps : List Step)
    (exec : String → σ → Except String σ) (s : σ) (existsBase : σ → Bool)
    (doCopy : σ → Except String σ) (outName : String) (evs : List Event)
    (s1 : σ) (hrun : runSteps exec steps s = (evs, s1, true)) :
    ((∀ s2, existsBase s1 = true → doCopy s1 = Except.ok s2 →
        run_pipeline steps exec s existsBase doCopy outName =
          (evs ++ [Event.pipeline_complete outName], s2)) ∧
     (existsBase s1 = false →
        run_pipeline steps exec s existsBase doCopy outName =
          (evs ++ [Event.pipeline_error "Failed to generate output file"], s1)) ∧
     (∀ m, existsBase s1 = true → doCopy s1 = Except.error m →
        run_pipeline steps exec s existsBase doCopy outName =
          (evs ++ [Event.pipeline_error ("Failed to generate output file: " ++ m)],
           s1))) := by
  refine ⟨?_, ?_, ?_⟩
  · intro s2 hex hcp
    simp [run_pipeline, hrun, hex, hcp]
  · intro hex
    simp [run_pipeline, hrun, hex]
  · intro m hex hcp
    simp [run_pipeline, hrun, hex, hcp]

/-- The all-success step behaviour used in witnesses. -/
def okExec : String → Unit → Except String Unit :=
  fun _ _ => Except.ok ()

/-- The always-successful copy environment used in witnesses. -/
def okCopy : Unit → Except String Unit :=
  fun _ => Except.ok ()

/-- The step trace of a fully successful run of the default order. -/
def okDefaultTrace : List Event :=
  [Event.step_start "different_sheet_transfer",
   Event.step_complete "different_sheet_transfer",
   Event.step_start "excel_macro",
   Event.step_complete "excel_macro",
   Event.step_start "same_sheet_transfer",
   Event.step_complete "same_sheet_transfer"]

theorem C7_output_stage_after_success_witness :
    (runSteps okExec defaultSteps () = (okDefaultTrace, (), true)) ∧
    ((∀ s2, (fun (_ : Unit) => true) () = true → okCopy () = Except.ok s2 →
        run_pipeline defaultSteps okExec ()
            (fun _ => true) okCopy "processed_b.xlsx" =
          (okDefaultTrace ++ [Event.pipeline_complete "processed_b.xlsx"], s2)) ∧
     ((fun (_ : Unit) => true) () = false →
        run_pipeline defaultSteps okExec ()
            (fun _ => true) okCopy "processed_b.xlsx" =
          (okDefaultTrace ++
           [Event.pipeline_error "Failed to generate output file"], ())) ∧
     (∀ m, (fun (_ : Unit) => true) () = true → okCopy () = Except.error m →
        run_pipeline defaultSteps okExec ()
            (fun _ => true) okCopy "processed_b.xlsx" =
          (okDefaultTrace ++
           [Event.pipeline_error ("Failed to generate output file: " ++ m)],
           ()))) :=
  ⟨by decide,
   C7_output_stage_after_success defaultSteps okExec ()
     (fun _ => true) okCopy "processed_b.xlsx" okDefaultTrace ()
     (by decide)⟩

theorem runSteps_prefix_fail {σ : Type} (exec : String → σ → Except String σ)
    (pre : List Step) (stp : Step) (rest : List Step) (s : σ)
    (evs : List Event) (s1 : σ) (msg : String)
    (hpre : runSteps exec pre s = (evs, s1, true))
    (hfail : exec stp.id s1 = Except.error msg) :
    runSteps exec (pre ++ stp :: rest) s =
      (evs ++ [Event.step_start stp.id, Event.step_error stp.id msg],
       s1, false) := by
  induction pre generalizing s evs with
  | nil =>
    simp [runSteps] at hpre
    obtain ⟨h1, h2⟩ := hpre
    subst h1
    subst h2
    simp [runSteps, hfail]
  | cons p pre ih =>
    cases hp : exec p.id s with
    | error m => simp [runSteps, hp] at hpre
    | ok s2 =>
      rcases hr : runSteps exec pre s2 with ⟨evs2, s3, ok3⟩
      simp only [runSteps, hp, hr, Prod.mk.injEq] at hpre
      obtain ⟨he, hs, hb⟩ := hpre
      subst hs
      subst hb
      subst he
      have hrec := ih s2 evs2 hr
      simp [runSteps, hp, hrec]

/-- C1: if the operation of the step at any position of the ordered step
sequence fails, _run_pipeline (script_manager.py lines 76-87) emits
step_start then step_error(stepId, message) for that step and returns
immediately: the trace is exactly the events of the completed prefix
followed by those two events, so no event of any later step is ever
emitted, and the final state equals the state the failing step was invoked
in — the output-copy stage at lines 89-106 is never reached, so neither
pipeline_complete nor the output file is produced. -/
theorem C1_step_failure_aborts_run {σ : Type}
    (exec : String → σ → Except String σ) (pre : List Step) (stp : Step)
    (rest : List Step) (s : σ) (existsBase : σ → Bool)
    (doCopy : σ → Except String σ) (outName : String) (evs : List Event)
    (s1 : σ) (msg : String)
    (hpre : runSteps exec pre s = (evs, s1, true))
    (hfail : exec stp.id s1 = Except.error msg) :
    run_pipeline (pre ++ stp :: rest) exec s existsBase doCopy outName =
      (evs ++ [Event.step_start stp.id, Event.step_error stp.id msg], s1) := by
  simp [run_pipeline,
    runSteps_prefix_fail exec pre stp rest s evs s1 msg hpre hfail]

/-- A step behaviour failing exactly at the excel_macro step, used in the
C1 witness. -/
def failAtMacroExec : String → Unit → Except String Unit :=
  fun i _ => if i = "excel_macro" then Except.error "boom" else Except.ok ()

theorem C1_step_failure_aborts_run_witness :
    (runSteps failAtMacroExec
        [Step.mk "different_sheet_transfer" "Transfer to New Sheet"] () =
      ([Event.step_start "different_sheet_transfer",
        Event.step_complete "different_sheet_transfer"], (), true)) ∧
    (failAtMacroExec (Step.mk "excel_macro" "Execute Excel Macro").id () =
        Except.error "boom") ∧
    run_pipeline
        ([Step.mk "different_sheet_transfer" "Transfer to New Sheet"] ++
          Step.mk "excel_macro" "Execute Excel Macro" ::
            [Step.mk "same_sheet_transfer" "Append to Base Sheet"])
        failAtMacroExec
        () (fun _ => true) okCopy "processed_b.xlsx" =
      ([Event.step_start "different_sheet_transfer",
        Event.step_complete "different_sheet_transfer"] ++
       [Event.step_start "excel_macro",
        Event.step_error "excel_macro" "boom"], ()) :=
  ⟨by decide, rfl,
   C1_step_failure_aborts_run failAtMacroExec
     [Step.mk "different_sheet_transfer" "Transfer to New Sheet"]
     (Step.mk "excel_macro" "Execute Excel Macro")
     [Step.mk "same_sheet_transfer" "Append to Base Sheet"] ()
     (fun _ => true) okCopy "processed_b.xlsx"
     [Event.step_start "different_sheet_transfer",
      Event.step_complete "different_sheet_transfer"] () "boom"
     (by decide) rfl⟩

/-- A ScriptManager state after a successful upload, used as the concrete
run-ready state in counterexamples and witnesses. -/
def readySMState : SMState :=
  SMState.mk (some "uploads/b.xlsx") (some "uploads/n.xlsx")
    (some "output/processed_b.xlsx") defaultSteps

/-- C5 counterexample: requesting the order
[same_sheet_transfer, excel_macro, different_sheet_transfer, bogus_step]
through the start-pipeline path (execute_pipeline with a step order,
script_manager.py lines 69-72) does not fail although bogus_step is not a
known step id: no exception is raised, no error event is emitted, the
background thread starts, and the stored step sequence is changed — the
claim says such a request fails with InvalidStepId and leaves the
sequence unchanged. -/
theorem C5_counterexample_start_path_skips_validation :
    execute_pipeline readySMState
        (some ["same_sheet_transfer", "excel_macro",
               "different_sheet_transfer", "bogus_step"]) =
      (none, [],
       SMState.mk (some "uploads/b.xlsx") (some "uploads/n.xlsx")
         (some "output/processed_b.xlsx")
         [Step.mk "same_sheet_transfer" "Append to Base Sheet",
          Step.mk "excel_macro" "Execute Excel Macro",
          Step.mk "different_sheet_transfer" "Transfer to New Sheet"],
       true) ∧
    knownStepIds.contains "bogus_step" = false ∧
    [Step.mk "same_sheet_transfer" "Append to Base Sheet",
     Step.mk "excel_macro" "Execute Excel Macro",
     Step.mk "different_sheet_transfer" "Transfer to New Sheet"] ≠
      readySMState.pipeline_steps := by
  decide

/-- C5 amended: an ordering containing an unknown id fails with the
InvalidStepId validation and leaves the sequence unchanged only on the
configuration-update path (update_pipeline_config, script_manager.py lines
108-121).  The start-pipeline path (execute_pipeline, lines 69-72) does
not validate: if the ordering covers every stored step id it is applied
and the run starts despite the unknown id; if it omits a stored step id,
the sort key raises an uncaught ValueError — the sequence is left
unchanged and no run starts, but the failure is not the InvalidStepId
validation. -/
theorem C5_amended_unknown_id_two_paths (b n : String) (o : Option String)
    (ps : List Step) (order : List String)
    (hbad : order.all (fun sid => knownStepIds.contains sid) = false) :
    (∀ st : SMState, update_pipeline_config st order = (false, st)) ∧
    (order ≠ [] →
      (ps.all (fun p => order.contains p.id) = true →
        execute_pipeline (SMState.mk (some b) (some n) o ps) (some order) =
          (none, [],
           SMState.mk (some b) (some n) o (sortByOrder order ps), true)) ∧
      (ps.all (fun p => order.contains p.id) = false →
        execute_pipeline (SMState.mk (some b) (some n) o ps) (some order) =
          (some "ValueError: is not in list", [],
           SMState.mk (some b) (some n) o ps, false))) := by
  refine ⟨?_, ?_⟩
  · intro st
    unfold update_pipeline_config
    rw [hbad]
    simp
  · intro hne
    have hni : order.isEmpty = false := by
      cases order with
      | nil => exact absurd rfl hne
      | cons a t => rfl
    refine ⟨?_, ?_⟩
    · intro hall
      dsimp only [execute_pipeline]
      rw [hni, hall]
      simp
    · intro hall
      dsimp only [execute_pipeline]
      rw [hni, hall]
      simp

theorem C5_amended_unknown_id_two_paths_witness :
    (["same_sheet_transfer", "excel_macro", "different_sheet_transfer",
      "bogus_step"].all (fun sid => knownStepIds.contains sid) = false) ∧
    ((∀ st : SMState,
        update_pipeline_config st
          ["same_sheet_transfer", "excel_macro", "different_sheet_transfer",
           "bogus_step"] = (false, st)) ∧
     (["same_sheet_transfer", "excel_macro", "different_sheet_transfer",
       "bogus_step"] ≠ ([] : List String) →
      (defaultSteps.all (fun p =>
          ["same_sheet_transfer", "excel_macro", "different_sheet_transfer",
           "bogus_step"].contains p.id) = true →
        execute_pipeline
            (SMState.mk (some "uploads/b.xlsx") (some "uploads/n.xlsx")
              (some "output/processed_b.xlsx") defaultSteps)
            (some ["same_sheet_transfer", "excel_macro",
                   "different_sheet_transfer", "bogus_step"]) =
          (none, [],
           SMState.mk (some "uploads/b.xlsx") (some "uploads/n.xlsx")
             (some "output/processed_b.xlsx")
             (sortByOrder
               ["same_sheet_transfer", "excel_macro",
                "different_sheet_transfer", "bogus_step"] defaultSteps),
           true)) ∧
      (defaultSteps.all (fun p =>
          ["same_sheet_transfer", "excel_macro", "different_sheet_transfer",
           "bogus_step"].contains p.id) = false →
        execute_pipeline
            (SMState.mk (some "uploads/b.xlsx") (some "uploads/n.xlsx")
              (some "output/processed_b.xlsx") defaultSteps)
            (some ["same_sheet_transfer", "excel_macro",
                   "different_sheet_transfer", "bogus_step"]) =
          (some "ValueError: is not in list", [],
           SMState.mk (some "uploads/b.xlsx") (some "uploads/n.xlsx")
             (some "output/processed_b.xlsx") defaultSteps,
           false)))) :=
  ⟨by decide,
   C5_amended_unknown_id_two_paths "uploads/b.xlsx" "uploads/n.xlsx"
     (some "output/processed_b.xlsx") defaultSteps
     ["same_sheet_transfer", "excel_macro", "different_sheet_transfer",
      "bogus_step"] (by decide)⟩

theorem update_file_paths_exists_ok (st : SMState)
    (basePath newDataPath : String) (fs : FS String) (ts : String)
    (c : String) (hex : lookupFS fs basePath = some c) :
    update_file_paths st basePath newDataPath fs ts true =
      (none,
       SMState.mk (some basePath) (some newDataPath)
         (some ("output/" ++ ("processed_" ++ pathBasename basePath)))
         st.pipeline_steps,
       setFS fs ("backups/" ++ ("backup_" ++ ts ++ "_" ++ pathBasename basePath))
         c) := by
  simp [update_file_paths, hex]

/-- C8 counterexample: the destination path uploads/b.xlsx holds "OLD"
before the upload; uploading a base file with content "NEW" produces a
backup file backups/backup_20240101_120000_b.xlsx whose content is "NEW",
not the pre-upload destination content "OLD" — because the upload handler
(app.py line 51) saves the new upload over the destination path before
update_file_paths (app.py line 59) copies that path to the backup
location.  The claim states the backup is byte-identical to the
pre-upload destination content. -/
theorem C8_counterexample_backup_holds_new_content :
    (lookupFS [("uploads/b.xlsx", "OLD")] "uploads/b.xlsx" = some "OLD") ∧
    lookupFS
        (upload_files initialSMState [("uploads/b.xlsx", "OLD")] "b.xlsx"
          "n.xlsx" "NEW" "ND" "20240101_120000" true).2.2
        "backups/backup_20240101_120000_b.xlsx" = some "NEW" ∧
    ("NEW" : String) ≠ "OLD" := by
  decide

/-- C8 amended: uploading a base file when a file already exists at the
destination path produces exactly one new file in the backup location,
named backup_<timestamp>_<base name> (so its name contains the
YYYYMMDD_HHMMSS timestamp and the original base name), and its content is
byte-identical to the file at the destination path at the moment the
path update runs, after both uploads were saved — the newly uploaded base
file content when the two uploaded names differ, and the newly uploaded
new-data content when both uploads share one name (the new-data save at
app.py line 56 overwrites the base save at line 51) — in no case the
pre-upload destination content, since app.py saves the uploads over the
destination path before update_file_paths copies it.  All other files
outside the three touched paths are unchanged, so the backup is the only
new file in the backup location (its path was vacant before, hfresh). -/
theorem C8_amended_backup_holds_post_save_content (st : SMState)
    (fs : FS String) (baseName newName bc nc ts oldc : String)
    (hold : lookupFS fs ("uploads/" ++ baseName) = some oldc)
    (hfresh : lookupFS fs
        ("backups/" ++ ("backup_" ++ ts ++ "_" ++
          pathBasename ("uploads/" ++ baseName))) = none) :
    (upload_files st fs baseName newName bc nc ts true).1 = none ∧
    (upload_files st fs baseName newName bc nc ts true).2.1 =
      SMState.mk (some ("uploads/" ++ baseName)) (some ("uploads/" ++ newName))
        (some ("output/" ++ ("processed_" ++
          pathBasename ("uploads/" ++ baseName)))) st.pipeline_steps ∧
    lookupFS (upload_files st fs baseName newName bc nc ts true).2.2
      ("backups/" ++ ("backup_" ++ ts ++ "_" ++
        pathBasename ("uploads/" ++ baseName))) =
      some (if ("uploads/" ++ baseName) = ("uploads/" ++ newName)
        then nc else bc) ∧
    (∀ p : String,
      p ≠ ("backups/" ++ ("backup_" ++ ts ++ "_" ++
        pathBasename ("uploads/" ++ baseName))) →
      p ≠ ("uploads/" ++ baseName) → p ≠ ("uploads/" ++ newName) →
      lookupFS (upload_files st fs baseName newName bc nc ts true).2.2 p =
        lookupFS fs p) := by
  have h2 : lookupFS
      (setFS (setFS fs ("uploads/" ++ baseName) bc) ("uploads/" ++ newName) nc)
      ("uploads/" ++ baseName) =
      some (if ("uploads/" ++ baseName) = ("uploads/" ++ newName)
        then nc else bc) := by
    by_cases he : ("uploads/" ++ baseName) = ("uploads/" ++ newName)
    · rw [if_pos he, ← he, lookupFS_setFS_self]
    · rw [if_neg he, lookupFS_setFS_ne _ _ _ _ he, lookupFS_setFS_self]
  have heq : upload_files st fs baseName newName bc nc ts true =
      (none,
       SMState.mk (some ("uploads/" ++ baseName)) (some ("uploads/" ++ newName))
         (some ("output/" ++ ("processed_" ++
           pathBasename ("uploads/" ++ baseName)))) st.pipeline_steps,
       setFS
         (setFS (setFS fs ("uploads/" ++ baseName) bc) ("uploads/" ++ newName) nc)
         ("backups/" ++ ("backup_" ++ ts ++ "_" ++
           pathBasename ("uploads/" ++ baseName)))
         (if ("uploads/" ++ baseName) = ("uploads/" ++ newName)
           then nc else bc)) := by
    show update_file_paths st ("uploads/" ++ baseName) ("uploads/" ++ newName)
        (setFS (setFS fs ("uploads/" ++ baseName) bc) ("uploads/" ++ newName) nc)
        ts true = _
    rw [update_file_paths_exists_ok st _ _ _ ts _ h2]
  refine ⟨by rw [heq], by rw [heq], by rw [heq, lookupFS_setFS_self],
    fun p hp1 hp2 hp3 => ?_⟩
  rw [heq]
  rw [lookupFS_setFS_ne _ _ _ _ hp1, lookupFS_setFS_ne _ _ _ _ hp3,
    lookupFS_setFS_ne _ _ _ _ hp2]

theorem C8_amended_backup_holds_post_save_content_witness :
    (lookupFS [("uploads/b.xlsx", "OLD")] ("uploads/" ++ "b.xlsx") =
      some "OLD") ∧
    (lookupFS [("uploads/b.xlsx", "OLD")]
        ("backups/" ++ ("backup_" ++ "20240101_120000" ++ "_" ++
          pathBasename ("uploads/" ++ "b.xlsx"))) = none) ∧
    ((upload_files initialSMState [("uploads/b.xlsx", "OLD")] "b.xlsx" "n.xlsx"
        "NEW" "ND" "20240101_120000" true).1 = none ∧
     (upload_files initialSMState [("uploads/b.xlsx", "OLD")] "b.xlsx" "n.xlsx"
        "NEW" "ND" "20240101_120000" true).2.1 =
       SMState.mk (some ("uploads/" ++ "b.xlsx")) (some ("uploads/" ++ "n.xlsx"))
         (some ("output/" ++ ("processed_" ++
           pathBasename ("uploads/" ++ "b.xlsx")))) initialSMState.pipeline_steps ∧
     lookupFS (upload_files initialSMState [("uploads/b.xlsx", "OLD")] "b.xlsx"
         "n.xlsx" "NEW" "ND" "20240101_120000" true).2.2
       ("backups/" ++ ("backup_" ++ "20240101_120000" ++ "_" ++
         pathBasename ("uploads/" ++ "b.xlsx"))) =
       some (if ("uploads/" ++ "b.xlsx") = ("uploads/" ++ "n.xlsx")
         then "ND" else "NEW") ∧
     (∀ p : String,
       p ≠ ("backups/" ++ ("backup_" ++ "20240101_120000" ++ "_" ++
         pathBasename ("uploads/" ++ "b.xlsx"))) →
       p ≠ ("uploads/" ++ "b.xlsx") → p ≠ ("uploads/" ++ "n.xlsx") →
       lookupFS (upload_files initialSMState [("uploads/b.xlsx", "OLD")]
           "b.xlsx" "n.xlsx" "NEW" "ND" "20240101_120000" true).2.2 p =
         lookupFS [("uploads/b.xlsx", "OLD")] p)) :=
  ⟨by decide, by decide,
   C8_amended_backup_holds_post_save_content initialSMState
     [("uploads/b.xlsx", "OLD")] "b.xlsx" "n.xlsx" "NEW" "ND"
     "20240101_120000" "OLD" (by decide) (by decide)⟩

/-- The workbook used in the C10 counterexample: one sheet with two
one-cell rows. -/
def c10wb : Workbook :=
  Workbook.mk [("Sheet1", [[Cell.str "a"], [Cell.str "b"]])]

/-- C10 counterexample: when the source path and the destination path are
the same file (the upload endpoint derives both paths from the uploaded
file names, so equal names give equal paths), _execute_same_sheet_transfer
saves the mutated destination workbook to that shared path — the file at
the source path changes (from two rows to three), refuting that no
transfer operation ever writes to the file at the source path. -/
theorem C10_counterexample_equal_paths_source_mutated :
    (execute_same_sheet_transfer "uploads/f.xlsx" "uploads/f.xlsx"
        [("uploads/f.xlsx", c10wb)] =
      Except.ok [("uploads/f.xlsx",
        Workbook.mk [("Sheet1",
          [[Cell.str "a"], [Cell.str "b"], [Cell.str "b"]])])]) ∧
    some (Workbook.mk [("Sheet1",
      [[Cell.str "a"], [Cell.str "b"], [Cell.str "b"]])]) ≠
      lookupFS [("uploads/f.xlsx", c10wb)] "uploads/f.xlsx" :=
  ⟨rfl, by decide⟩

/-- C10 amended: provided the source path and the destination path are
distinct, none of the three operations changes the file at the source
path: each one only saves a workbook to the base (destination) path —
_execute_same_sheet_transfer and _execute_different_sheet_transfer load
the source read-only, and _execute_excel_macro touches only the base
path. -/
theorem C10_amended_distinct_paths_source_unchanged
    (basePath newDataPath : String) (fs fs2 : FS Workbook)
    (hne : newDataPath ≠ basePath) :
    (execute_same_sheet_transfer basePath newDataPath fs = Except.ok fs2 →
       lookupFS fs2 newDataPath = lookupFS fs newDataPath) ∧
    (execute_different_sheet_transfer basePath newDataPath fs = Except.ok fs2 →
       lookupFS fs2 newDataPath = lookupFS fs newDataPath) ∧
    (execute_excel_macro_step basePath fs = Except.ok fs2 →
       lookupFS fs2 newDataPath = lookupFS fs newDataPath) := by
  refine ⟨?_, ?_, ?_⟩
  · intro h
    unfold execute_same_sheet_transfer at h
    cases h1 : lookupFS fs newDataPath with
    | none => rw [h1] at h; simp at h
    | some srcWb =>
      rw [h1] at h
      cases h2 : lookupFS fs basePath with
      | none => rw [h2] at h; simp at h
      | some dstWb =>
        rw [h2] at h
        simp only [Except.ok.injEq] at h
        rw [← h, lookupFS_setFS_ne _ _ _ _ hne, h1]
  · intro h
    cases h1 : lookupFS fs newDataPath with
    | none => simp [execute_different_sheet_transfer, h1] at h
    | some srcWb =>
      cases h2 : lookupFS fs basePath with
      | none => simp [execute_different_sheet_transfer, h1, h2] at h
      | some dstWb =>
        cases h3 : dstWb.createSheet "Transferred Data"
            (differentSheetRows srcWb.active) with
        | error e => simp [execute_different_sheet_transfer, h1, h2, h3] at h
        | ok w2 =>
          simp only [execute_different_sheet_transfer, h1, h2, h3,
            Except.ok.injEq] at h
          rw [← h, lookupFS_setFS_ne _ _ _ _ hne, h1]
  · intro h
    unfold execute_excel_macro_step at h
    cases h2 : lookupFS fs basePath with
    | none => rw [h2] at h; simp at h
    | some wb =>
      rw [h2] at h
      simp only [Except.ok.injEq] at h
      rw [← h, lookupFS_setFS_ne _ _ _ _ hne]

/-- The sample source and destination workbooks used in witnesses. -/
def witSrcWb : Workbook :=
  Workbook.mk [("Sheet1", [[Cell.str "h", Cell.str "k"],
    [Cell.date 5 3 2024, Cell.int 7]])]

def witDstWb : Workbook :=
  Workbook.mk [("Sheet1", [[Cell.str "a"], [Cell.str "b"], [Cell.str "c"]])]

theorem C10_amended_distinct_paths_source_unchanged_witness :
    ("uploads/n.xlsx" : String) ≠ "uploads/b.xlsx" ∧
    ((execute_same_sheet_transfer "uploads/b.xlsx" "uploads/n.xlsx"
        [("uploads/b.xlsx", witDstWb), ("uploads/n.xlsx", witSrcWb)] =
          Except.ok (setFS
            [("uploads/b.xlsx", witDstWb), ("uploads/n.xlsx", witSrcWb)]
            "uploads/b.xlsx"
            (witDstWb.setActive
              (sameSheetTransfer witSrcWb.active witDstWb.active))) →
       lookupFS (setFS
           [("uploads/b.xlsx", witDstWb), ("uploads/n.xlsx", witSrcWb)]
           "uploads/b.xlsx"
           (witDstWb.setActive
             (sameSheetTransfer witSrcWb.active witDstWb.active)))
         "uploads/n.xlsx" =
         lookupFS [("uploads/b.xlsx", witDstWb), ("uploads/n.xlsx", witSrcWb)]
           "uploads/n.xlsx") ∧
     (execute_different_sheet_transfer "uploads/b.xlsx" "uploads/n.xlsx"
        [("uploads/b.xlsx", witDstWb), ("uploads/n.xlsx", witSrcWb)] =
          Except.ok (setFS
            [("uploads/b.xlsx", witDstWb), ("uploads/n.xlsx", witSrcWb)]
            "uploads/b.xlsx"
            (witDstWb.setActive
              (sameSheetTransfer witSrcWb.active witDstWb.active))) →
       lookupFS (setFS
           [("uploads/b.xlsx", witDstWb), ("uploads/n.xlsx", witSrcWb)]
           "uploads/b.xlsx"
           (witDstWb.setActive
             (sameSheetTransfer witSrcWb.active witDstWb.active)))
         "uploads/n.xlsx" =
         lookupFS [("uploads/b.xlsx", witDstWb), ("uploads/n.xlsx", witSrcWb)]
           "uploads/n.xlsx") ∧
     (execute_excel_macro_step "uploads/b.xlsx"
        [("uploads/b.xlsx", witDstWb), ("uploads/n.xlsx", witSrcWb)] =
          Except.ok (setFS
            [("uploads/b.xlsx", witDstWb), ("uploads/n.xlsx", witSrcWb)]
            "uploads/b.xlsx"
            (witDstWb.setActive
              (sameSheetTransfer witSrcWb.active witDstWb.active))) →
       lookupFS (setFS
           [("uploads/b.xlsx", witDstWb), ("uploads/n.xlsx", witSrcWb)]
           "uploads/b.xlsx"
           (witDstWb.setActive
             (sameSheetTransfer witSrcWb.active witDstWb.active)))
         "uploads/n.xlsx" =
         lookupFS [("uploads/b.xlsx", witDstWb), ("uploads/n.xlsx", witSrcWb)]
           "uploads/n.xlsx")) :=
  ⟨by decide,
   C10_amended_distinct_paths_source_unchanged "uploads/b.xlsx"
     "uploads/n.xlsx"
     [("uploads/b.xlsx", witDstWb), ("uploads/n.xlsx", witSrcWb)]
     (setFS [("uploads/b.xlsx", witDstWb), ("uploads/n.xlsx", witSrcWb)]
       "uploads/b.xlsx"
       (witDstWb.setActive
         (sameSheetTransfer witSrcWb.active witDstWb.active)))
     (by decide)⟩

theorem nthD_map {α β : Type} (f : α → β) (l : List α) (n : Nat) (d : α) :
    nthD (l.map f) n (f d) = f (nthD l n d) := by
  induction l generalizing n with
  | nil => cases n <;> rfl
  | cons a t ih =>
    cases n with
    | zero => rfl
    | succ m => exact ih m

theorem nthD_lt_irrel {α : Type} (l : List α) (n : Nat) (d d2 : α)
    (h : n < l.length) : nthD l n d = nthD l n d2 := by
  induction l generalizing n with
  | nil => simp at h
  | cons a t ih =>
    cases n with
    | zero => rfl
    | succ m => exact ih m (by simpa using h)

theorem nthD_ge_length {α : Type} (l : List α) (n : Nat) (d : α)
    (h : l.length ≤ n) : nthD l n d = d := by
  induction l generalizing n with
  | nil => cases n <;> rfl
  | cons a t ih =>
    cases n with
    | zero => simp at h
    | succ m => exact ih m (by simpa using h)

theorem nthD_mem {α : Type} (l : List α) (n : Nat) (d : α)
    (h : n < l.length) : nthD l n d ∈ l := by
  induction l generalizing n with
  | nil => simp at h
  | cons a t ih =>
    cases n with
    | zero => exact List.mem_cons_self a t
    | succ m => exact List.mem_cons_of_mem a (ih m (by simpa using h))

theorem nthD_append_lt {α : Type} (l l2 : List α) (n : Nat) (d : α)
    (h : n < l.length) : nthD (l ++ l2) n d = nthD l n d := by
  induction l generalizing n with
  | nil => simp at h
  | cons a t ih =>
    cases n with
    | zero => rfl
    | succ m => exact ih m (by simpa using h)

theorem nthD_replicate {α : Type} (k n : Nat) (a : α) :
    nthD (List.replicate k a) n a = a := by
  induction k generalizing n with
  | zero => cases n <;> rfl
  | succ m ih =>
    cases n with
    | zero => rfl
    | succ m2 => exact ih m2

theorem nthD_append_ge {α : Type} (l l2 : List α) (n : Nat) (d : α)
    (h : l.length ≤ n) : nthD (l ++ l2) n d = nthD l2 (n - l.length) d := by
  induction l generalizing n with
  | nil => simp
  | cons a t ih =>
    cases n with
    | zero => simp at h
    | succ m => simpa using ih m (by simpa using h)

theorem length_le_maxWidth (s : Sheet) (row : List Cell) (hm : row ∈ s) :
    row.length ≤ maxWidth s := by
  induction s with
  | nil => simp at hm
  | cons r t ih =>
    rcases List.mem_cons.mp hm with h | h
    · subst h
      exact Nat.le_max_left _ _
    · exact Nat.le_trans (ih h) (Nat.le_max_right _ _)

theorem nthD_padTo (row : List Cell) (w j : Nat) (hj : j < w) :
    nthD (padTo row w) j Cell.empty = nthD row j Cell.empty := by
  by_cases h : j < row.length
  · exact nthD_append_lt row _ j Cell.empty h
  · have h2 : row.length ≤ j := Nat.le_of_not_lt h
    rw [padTo, nthD_append_ge row _ j Cell.empty h2, nthD_replicate,
      nthD_ge_length row j Cell.empty h2]

theorem padTo_length (row : List Cell) (w : Nat) (h : row.length ≤ w) :
    (padTo row w).length = w := by
  simp [padTo]
  omega

theorem fmtCell_empty : fmtCell Cell.empty = Cell.empty := rfl

/-- The cells of the formatted row block written to the new sheet: within
the source dimensions they are the formatted source cells. -/
theorem cellv_differentSheetRows (s : Sheet) (k j : Nat)
    (hk : k < s.length) (hj : j < maxWidth s) :
    cellv (differentSheetRows s) k j = fmtCell (cellv s k j) := by
  have h1 : nthD (differentSheetRows s) k ([] : List Cell) =
      List.map fmtCell (nthD (iterRowsVals s) k []) := by
    have := nthD_map (List.map fmtCell) (iterRowsVals s) k []
    simpa [differentSheetRows] using this
  have h2 : nthD (iterRowsVals s) k ([] : List Cell) =
      padTo (nthD s k []) (maxWidth s) := by
    have hlen : k < (iterRowsVals s).length := by
      simpa [iterRowsVals] using hk
    rw [nthD_lt_irrel (iterRowsVals s) k [] (padTo [] (maxWidth s)) hlen]
    have := nthD_map (fun r => padTo r (maxWidth s)) s k []
    simpa [iterRowsVals] using this
  rw [cellv, h1, h2]
  have h3 := nthD_map fmtCell (padTo (nthD s k []) (maxWidth s)) j Cell.empty
  rw [fmtCell_empty] at h3
  rw [h3, nthD_padTo _ _ j hj]
  rfl

theorem hasSheet_append_self (w : Workbook) (n : String) (content : Sheet) :
    (Workbook.mk (w.sheets ++ [(n, content)])).hasSheet n = true := by
  simp [Workbook.hasSheet, List.any_append]

/-- C3: with a destination workbook that does not yet contain a sheet
named "Transferred Data", _execute_different_sheet_transfer saves the
destination with exactly one added sheet with that literal name, holding
every row of the source active sheet (header included, original order,
length preserved) with each date cell rewritten to its dd/mm/yyyy text and
all other cells unchanged; and running the operation a second time on the
resulting file system raises a write failure (the modelled duplicate-sheet
error) instead of silently overwriting. -/
theorem C3_transferred_data_sheet_then_duplicate_failure
    (fs : FS Workbook) (basePath newDataPath : String)
    (srcWb dstWb : Workbook)
    (hs : lookupFS fs newDataPath = some srcWb)
    (hd : lookupFS fs basePath = some dstWb)
    (hno : dstWb.hasSheet "Transferred Data" = false) :
    (execute_different_sheet_transfer basePath newDataPath fs =
      Except.ok (setFS fs basePath
        (Workbook.mk (dstWb.sheets ++
          [("Transferred Data", differentSheetRows srcWb.active)])))) ∧
    ((differentSheetRows srcWb.active).length = srcWb.active.length) ∧
    (∀ k j : Nat, k < srcWb.active.length → j < maxWidth srcWb.active →
       cellv (differentSheetRows srcWb.active) k j =
         fmtCell (cellv srcWb.active k j)) ∧
    (∃ msg, execute_different_sheet_transfer basePath newDataPath
        (setFS fs basePath
          (Workbook.mk (dstWb.sheets ++
            [("Transferred Data", differentSheetRows srcWb.active)]))) =
      Except.error msg) := by
  refine ⟨?_, ?_, ?_, ?_⟩
  · simp [execute_different_sheet_transfer, hs, hd, Workbook.createSheet, hno]
  · simp [differentSheetRows, iterRowsVals]
  · intro k j hk hj
    exact cellv_differentSheetRows srcWb.active k j hk hj
  · refine ⟨"Sheet " ++ "Transferred Data" ++ " already exists", ?_⟩
    by_cases hq : newDataPath = basePath
    · subst hq
      have hlk : lookupFS (setFS fs newDataPath
          (Workbook.mk (dstWb.sheets ++
            [("Transferred Data", differentSheetRows srcWb.active)])))
          newDataPath = some (Workbook.mk (dstWb.sheets ++
            [("Transferred Data", differentSheetRows srcWb.active)])) :=
        lookupFS_setFS_self _ _ _
      simp [execute_different_sheet_transfer, hlk, Workbook.createSheet,
        hasSheet_append_self]
    · have hlk1 : lookupFS (setFS fs basePath
          (Workbook.mk (dstWb.sheets ++
            [("Transferred Data", differentSheetRows srcWb.active)])))
          newDataPath = some srcWb := by
        rw [lookupFS_setFS_ne _ _ _ _ hq, hs]
      have hlk2 : lookupFS (setFS fs basePath
          (Workbook.mk (dstWb.sheets ++
            [("Transferred Data", differentSheetRows srcWb.active)])))
          basePath = some (Workbook.mk (dstWb.sheets ++
            [("Transferred Data", differentSheetRows srcWb.active)])) :=
        lookupFS_setFS_self _ _ _
      simp [execute_different_sheet_transfer, hlk1, hlk2,
        Workbook.createSheet, hasSheet_append_self]

/-- The concrete two-file system used in the C3 witness. -/
def c3fs : FS Workbook :=
  [("uploads/b.xlsx", witDstWb), ("uploads/n.xlsx", witSrcWb)]

theorem C3_transferred_data_sheet_then_duplicate_failure_witness :
    (lookupFS c3fs "uploads/n.xlsx" = some witSrcWb) ∧
    (lookupFS c3fs "uploads/b.xlsx" = some witDstWb) ∧
    (witDstWb.hasSheet "Transferred Data" = false) ∧
    ((execute_different_sheet_transfer "uploads/b.xlsx" "uploads/n.xlsx" c3fs =
       Except.ok (setFS c3fs "uploads/b.xlsx"
         (Workbook.mk (witDstWb.sheets ++
           [("Transferred Data", differentSheetRows witSrcWb.active)])))) ∧
     ((differentSheetRows witSrcWb.active).length = witSrcWb.active.length) ∧
     (∀ k j : Nat, k < witSrcWb.active.length → j < maxWidth witSrcWb.active →
        cellv (differentSheetRows witSrcWb.active) k j =
          fmtCell (cellv witSrcWb.active k j)) ∧
     (∃ msg, execute_different_sheet_transfer "uploads/b.xlsx" "uploads/n.xlsx"
         (setFS c3fs "uploads/b.xlsx"
           (Workbook.mk (witDstWb.sheets ++
             [("Transferred Data", differentSheetRows witSrcWb.active)]))) =
       Except.error msg)) :=
  ⟨by decide, by decide, by decide,
   C3_transferred_data_sheet_then_duplicate_failure c3fs "uploads/b.xlsx"
     "uploads/n.xlsx" witSrcWb witDstWb (by decide) (by decide) (by decide)⟩

/-- For a requested ordering that is a permutation of the known step ids
and a stored step list that is some permutation of the default steps (as
every reachable pipeline_steps value is), the stable index sort produces
exactly the requested order.  The finitely many cases are checked
directly. -/
theorem sortByOrder_ids_of_perm (steps : List Step) (order : List String)
    (hsteps : steps.Perm defaultSteps) (horder : order.Perm knownStepIds) :
    (sortByOrder order steps).map (fun s => s.id) = order := by
  have hm1 : steps ∈ List.permutations' defaultSteps :=
    List.mem_permutations'.mpr hsteps
  have hm2 : order ∈ List.permutations' knownStepIds :=
    List.mem_permutations'.mpr horder
  have he1 : List.permutations' defaultSteps =
      [[Step.mk "different_sheet_transfer" "Transfer to New Sheet",
        Step.mk "excel_macro" "Execute Excel Macro",
        Step.mk "same_sheet_transfer" "Append to Base Sheet"],
       [Step.mk "excel_macro" "Execute Excel Macro",
        Step.mk "different_sheet_transfer" "Transfer to New Sheet",
        Step.mk "same_sheet_transfer" "Append to Base Sheet"],
       [Step.mk "excel_macro" "Execute Excel Macro",
        Step.mk "same_sheet_transfer" "Append to Base Sheet",
        Step.mk "different_sheet_transfer" "Transfer to New Sheet"],
       [Step.mk "different_sheet_transfer" "Transfer to New Sheet",
        Step.mk "same_sheet_transfer" "Append to Base Sheet",
        Step.mk "excel_macro" "Execute Excel Macro"],
       [Step.mk "same_sheet_transfer" "Append to Base Sheet",
        Step.mk "different_sheet_transfer" "Transfer to New Sheet",
        Step.mk "excel_macro" "Execute Excel Macro"],
       [Step.mk "same_sheet_transfer" "Append to Base Sheet",
        Step.mk "excel_macro" "Execute Excel Macro",
        Step.mk "different_sheet_transfer" "Transfer to New Sheet"]] := by
    decide
  have he2 : List.permutations' knownStepIds =
      [["different_sheet_transfer", "excel_macro", "same_sheet_transfer"],
       ["excel_macro", "different_sheet_transfer", "same_sheet_transfer"],
       ["excel_macro", "same_sheet_transfer", "different_sheet_transfer"],
       ["different_sheet_transfer", "same_sheet_transfer", "excel_macro"],
       ["same_sheet_transfer", "different_sheet_transfer", "excel_macro"],
       ["same_sheet_transfer", "excel_macro", "different_sheet_transfer"]] := by
    decide
  rw [he1] at hm1
  rw [he2] at hm2
  fin_cases hm1 <;> fin_cases hm2 <;> decide

/-- The event trace produced by a run in which every step succeeds. -/
def stepTrace (steps : List Step) : List Event :=
  steps.foldr
    (fun p acc => Event.step_start p.id :: Event.step_complete p.id :: acc) []

theorem runSteps_all_ok {σ : Type} (exec : String → σ → Except String σ)
    (hok : ∀ i t, (exec i t).isOk = true) (steps : List Step) (s : σ) :
    ∃ s2, runSteps exec steps s = (stepTrace steps, s2, true) := by
  induction steps generalizing s with
  | nil => exact ⟨s, rfl⟩
  | cons p t ih =>
    cases hE : exec p.id s with
    | error m =>
      have := hok p.id s
      rw [hE] at this
      simp [Except.isOk, Except.toBool] at this
    | ok s2 =>
      obtain ⟨s3, hr⟩ := ih s2
      exact ⟨s3, by simp [runSteps, hE, hr, stepTrace]⟩

theorem stepStarts_stepTrace (steps : List Step) :
    stepStarts (stepTrace steps) = steps.map (fun s => s.id) := by
  induction steps with
  | nil => rfl
  | cons p t ih => simp [stepTrace, stepStarts] at ih ⊢; exact ih

theorem stepStarts_append (a b : List Event) :
    stepStarts (a ++ b) = stepStarts a ++ stepStarts b := by
  simp [stepStarts]

/-- When every step succeeds, the step_start events of the whole run trace
(including the output-copy stage, which emits only pipeline events) are
exactly the step ids in execution order. -/
theorem stepStarts_run_pipeline_all_ok {σ : Type} (steps : List Step)
    (exec : String → σ → Except String σ) (s : σ) (existsBase : σ → Bool)
    (doCopy : σ → Except String σ) (outName : String)
    (hok : ∀ i t, (exec i t).isOk = true) :
    stepStarts (run_pipeline steps exec s existsBase doCopy outName).1 =
      steps.map (fun p => p.id) := by
  obtain ⟨s2, hr⟩ := runSteps_all_ok exec hok steps s
  have h1 : ∀ evs, stepStarts (stepTrace steps ++ evs) =
      steps.map (fun p => p.id) ++ stepStarts evs := by
    intro evs
    rw [stepStarts_append, stepStarts_stepTrace]
  have h2 : stepStarts [Event.pipeline_complete outName] = [] := rfl
  have h3 : ∀ m, stepStarts [Event.pipeline_error m] = [] := fun m => rfl
  unfold run_pipeline
  rw [hr]
  cases hb : existsBase s2 with
  | true =>
    cases hcp : doCopy s2 with
    | ok s3 => simp [hb, hcp, h1, h2]
    | error m => simp [hb, hcp, h1, h3]
  | false => simp [hb, h1, h3]

/-- C4: a requested ordering containing exactly the known step ids, each
exactly once, makes update_pipeline_config succeed (return True), and a
run started afterwards — whatever the step operations then do, as long as
they succeed — emits step_start events in exactly the requested order. -/
theorem C4_valid_reorder_then_run_in_requested_order {σ : Type}
    (st : SMState) (order : List String)
    (exec : String → σ → Except String σ) (s : σ) (existsBase : σ → Bool)
    (doCopy : σ → Except String σ) (outName : String)
    (hsteps : st.pipeline_steps.Perm defaultSteps)
    (horder : order.Perm knownStepIds)
    (hok : ∀ i t, (exec i t).isOk = true) :
    (update_pipeline_config st order).1 = true ∧
    stepStarts (run_pipeline (update_pipeline_config st order).2.pipeline_steps
        exec s existsBase doCopy outName).1 = order := by
  have hvalid : order.all (fun sid => knownStepIds.contains sid) = true := by
    rw [List.all_eq_true]
    intro x hx
    exact List.elem_eq_true_of_mem (horder.mem_iff.mp hx)
  have hcover : st.pipeline_steps.all (fun p => order.contains p.id) = true := by
    rw [List.all_eq_true]
    intro p hp
    have hdef : p ∈ defaultSteps := hsteps.mem_iff.mp hp
    have hkn : p.id ∈ knownStepIds := by
      fin_cases hdef <;> decide
    exact List.elem_eq_true_of_mem (horder.mem_iff.mpr hkn)
  have heq : update_pipeline_config st order =
      (true, SMState.mk st.base_sheet_path st.new_data_sheet_path
        st.output_file_path (sortByOrder order st.pipeline_steps)) := by
    unfold update_pipeline_config
    rw [hvalid, hcover]
    simp
  refine ⟨by rw [heq], ?_⟩
  rw [heq]
  rw [stepStarts_run_pipeline_all_ok _ exec s existsBase doCopy outName hok]
  exact sortByOrder_ids_of_perm st.pipeline_steps order hsteps horder

theorem C4_valid_reorder_then_run_in_requested_order_witness :
    (readySMState.pipeline_steps.Perm defaultSteps ∧
     ["same_sheet_transfer", "excel_macro",
      "different_sheet_transfer"].Perm knownStepIds ∧
     (∀ i t, (okExec i t).isOk = true)) ∧
    ((update_pipeline_config readySMState
        ["same_sheet_transfer", "excel_macro",
         "different_sheet_transfer"]).1 = true ∧
     stepStarts (run_pipeline
         (update_pipeline_config readySMState
           ["same_sheet_transfer", "excel_macro",
            "different_sheet_transfer"]).2.pipeline_steps
         okExec () (fun _ => true) okCopy "processed_b.xlsx").1 =
       ["same_sheet_transfer", "excel_macro", "different_sheet_transfer"]) :=
  ⟨⟨by decide, by decide, fun i t => rfl⟩,
   C4_valid_reorder_then_run_in_requested_order readySMState
     ["same_sheet_transfer", "excel_macro", "different_sheet_transfer"]
     okExec () (fun _ => true) okCopy "processed_b.xlsx"
     (by decide) (by decide) (fun i t => rfl)⟩

theorem nthD_setCellRow_self (row : List Cell) (j : Nat) (v : Cell) :
    nthD (setCellRow row j v) j Cell.empty = v := by
  induction row generalizing j with
  | nil =>
    induction j with
    | zero => rfl
    | succ m ih => exact ih
  | cons c t ih =>
    cases j with
    | zero => rfl
    | succ m => exact ih m

theorem nthD_setCellRow_ne (row : List Cell) (j j2 : Nat) (v : Cell)
    (hne : j2 ≠ j) :
    nthD (setCellRow row j v) j2 Cell.empty = nthD row j2 Cell.empty := by
  induction row generalizing j j2 with
  | nil =>
    induction j generalizing j2 with
    | zero =>
      cases j2 with
      | zero => exact absurd rfl hne
      | succ m => cases m <;> rfl
    | succ m ih =>
      cases j2 with
      | zero => rfl
      | succ m2 => exact ih m2 (fun h => hne (by rw [h]))
  | cons c t ih =>
    cases j with
    | zero =>
      cases j2 with
      | zero => exact absurd rfl hne
      | succ m => rfl
    | succ m =>
      cases j2 with
      | zero => rfl
      | succ m2 => exact ih m m2 (fun h => hne (by rw [h]))

theorem nthD_setCellv_row_self (s : Sheet) (i j : Nat) (v : Cell) :
    nthD (setCellv s i j v) i [] = setCellRow (nthD s i []) j v := by
  induction s generalizing i with
  | nil =>
    induction i with
    | zero => rfl
    | succ m ih => exact ih
  | cons r t ih =>
    cases i with
    | zero => rfl
    | succ m => exact ih m

theorem nthD_setCellv_row_ne (s : Sheet) (i j : Nat) (v : Cell) (i2 : Nat)
    (hne : i2 ≠ i) : nthD (setCellv s i j v) i2 [] = nthD s i2 [] := by
  induction s generalizing i i2 with
  | nil =>
    induction i generalizing i2 with
    | zero =>
      cases i2 with
      | zero => exact absurd rfl hne
      | succ m => cases m <;> rfl
    | succ m ih =>
      cases i2 with
      | zero => rfl
      | succ m2 => exact ih m2 (fun h => hne (by rw [h]))
  | cons r t ih =>
    cases i with
    | zero =>
      cases i2 with
      | zero => exact absurd rfl hne
      | succ m => rfl
    | succ m =>
      cases i2 with
      | zero => rfl
      | succ m2 => exact ih m m2 (fun h => hne (by rw [h]))

theorem cellv_setCellv_self (s : Sheet) (i j : Nat) (v : Cell) :
    cellv (setCellv s i j v) i j = v := by
  rw [cellv, nthD_setCellv_row_self, nthD_setCellRow_self]

theorem cellv_setCellv_ne (s : Sheet) (i j : Nat) (v : Cell) (i2 j2 : Nat)
    (h : i2 ≠ i ∨ j2 ≠ j) : cellv (setCellv s i j v) i2 j2 = cellv s i2 j2 := by
  by_cases hi : i2 = i
  · subst hi
    rcases h with h | h
    · exact absurd rfl h
    · rw [cellv, nthD_setCellv_row_self, nthD_setCellRow_ne _ _ _ _ h, cellv]
  · rw [cellv, nthD_setCellv_row_ne _ _ _ _ _ hi, cellv]

theorem cellv_writeRow0_other_row (i : Nat) (s : Sheet) (j : Nat)
    (vs : List Cell) (i2 j2 : Nat) (h : i2 ≠ i) :
    cellv (writeRow0 i s j vs) i2 j2 = cellv s i2 j2 := by
  induction vs generalizing s j with
  | nil => rfl
  | cons v t ih =>
    rw [writeRow0, ih, cellv_setCellv_ne _ _ _ _ _ _ (Or.inl h)]

theorem cellv_writeRow0_lt_col (i : Nat) (s : Sheet) (j : Nat)
    (vs : List Cell) (j2 : Nat) (h : j2 < j) :
    cellv (writeRow0 i s j vs) i j2 = cellv s i j2 := by
  induction vs generalizing s j with
  | nil => rfl
  | cons v t ih =>
    rw [writeRow0, ih (setCellv s i j (fmtCell v)) (j + 1)
        (Nat.lt_succ_of_lt h),
      cellv_setCellv_ne _ _ _ _ _ _ (Or.inr (Nat.ne_of_lt h))]

theorem cellv_writeRow0_at (i : Nat) (s : Sheet) (j : Nat) (vs : List Cell)
    (k : Nat) (hk : k < vs.length) :
    cellv (writeRow0 i s j vs) i (j + k) = fmtCell (nthD vs k Cell.empty) := by
  induction vs generalizing s j k with
  | nil => simp at hk
  | cons v t ih =>
    cases k with
    | zero =>
      rw [Nat.add_zero, writeRow0,
        cellv_writeRow0_lt_col i _ (j + 1) t j (Nat.lt_succ_self j),
        cellv_setCellv_self]
      rfl
    | succ m =>
      have hrw : j + (m + 1) = (j + 1) + m := by omega
      rw [hrw, writeRow0, ih (setCellv s i j (fmtCell v)) (j + 1) m
        (by simpa using hk)]
      rfl

theorem cellv_appendRows0_lt (rows : List (List Cell)) (s : Sheet)
    (i i2 j2 : Nat) (h : i2 < i) :
    cellv (appendRows0 s i rows) i2 j2 = cellv s i2 j2 := by
  induction rows generalizing s i with
  | nil => rfl
  | cons row rest ih =>
    rw [appendRows0, ih (writeRow0 i s 0 row) (i + 1) (Nat.lt_succ_of_lt h),
      cellv_writeRow0_other_row _ _ _ _ _ _ (Nat.ne_of_lt h)]

theorem cellv_appendRows0_ge (rows : List (List Cell)) (s : Sheet)
    (i i2 j2 : Nat) (h : i + rows.length ≤ i2) :
    cellv (appendRows0 s i rows) i2 j2 = cellv s i2 j2 := by
  induction rows generalizing s i with
  | nil => rfl
  | cons row rest ih =>
    have h2 : (i + 1) + rest.length ≤ i2 := by
      simp at h
      omega
    have hne : i2 ≠ i := by
      simp at h
      omega
    rw [appendRows0, ih (writeRow0 i s 0 row) (i + 1) h2,
      cellv_writeRow0_other_row _ _ _ _ _ _ hne]

theorem cellv_appendRows0_at (rows : List (List Cell)) (s : Sheet)
    (i k j : Nat) (hk : k < rows.length)
    (hj : j < (nthD rows k []).length) :
    cellv (appendRows0 s i rows) (i + k) j =
      fmtCell (nthD (nthD rows k []) j Cell.empty) := by
  induction rows generalizing s i k with
  | nil => simp at hk
  | cons row rest ih =>
    cases k with
    | zero =>
      have hj2 : j < row.length := hj
      rw [Nat.add_zero, appendRows0,
        cellv_appendRows0_lt rest _ (i + 1) i j (Nat.lt_succ_self i)]
      have := cellv_writeRow0_at i s 0 row j hj2
      rw [Nat.zero_add] at this
      exact this
    | succ m =>
      have hrw : i + (m + 1) = (i + 1) + m := by omega
      rw [hrw, appendRows0, ih (writeRow0 i s 0 row) (i + 1) m
        (by simpa using hk) hj]
      rfl

theorem fmtCell_ne_empty (c : Cell) (h : c ≠ Cell.empty) :
    fmtCell c ≠ Cell.empty := by
  cases c <;> simp [fmtCell] at h ⊢

theorem nthD_col0 (s : Sheet) (r : Nat) :
    nthD (col0 s) r Cell.empty = cellv s r 0 := by
  have := nthD_map (fun row => nthD row 0 Cell.empty) s r []
  simpa [col0, cellv] using this

theorem leadingNonEmpty_eq (l : List Cell) (N : Nat)
    (h : ∀ r : Nat, nthD l r Cell.empty ≠ Cell.empty ↔ r < N) :
    leadingNonEmpty l = N := by
  induction l generalizing N with
  | nil =>
    have h0 := h 0
    simp [nthD] at h0
    simp [leadingNonEmpty]
    omega
  | cons c t ih =>
    by_cases hc : c = Cell.empty
    · have h0 := h 0
      rw [show nthD (c :: t) 0 Cell.empty = c from rfl] at h0
      simp [hc] at h0
      simp [leadingNonEmpty, hc]
      omega
    · have h0 := h 0
      rw [show nthD (c :: t) 0 Cell.empty = c from rfl] at h0
      have hN : 0 < N := h0.mp hc
      obtain ⟨N2, rfl⟩ : ∃ N2, N = N2 + 1 := ⟨N - 1, by omega⟩
      have ht : leadingNonEmpty t = N2 := by
        apply ih
        intro r
        have := h (r + 1)
        rw [show nthD (c :: t) (r + 1) Cell.empty =
          nthD t r Cell.empty from rfl] at this
        constructor
        · intro hr
          have := this.mp hr
          omega
        · intro hr
          exact this.mpr (by omega)
      simp [leadingNonEmpty, hc, ht]

theorem firstEmptyIdx_eq (s : Sheet) (N : Nat)
    (h : ∀ r : Nat, cellv s r 0 ≠ Cell.empty ↔ r < N) :
    firstEmptyIdx s = N := by
  apply leadingNonEmpty_eq
  intro r
  rw [nthD_col0]
  exact h r

/-- C2 counterexample: destination is empty (N = 0 rows populated in
column 1) and the source has a header plus M = 1 data row whose first
cell is empty (cell B2 holds "y", cell A2 is empty — a perfectly ordinary
sheet).  After the transfer the destination holds the copied row
[empty, "y"], so column 1 of the destination has 0 populated rows, not
N + M = 1 as the claim requires for every such source. -/
theorem C2_counterexample_data_row_with_empty_first_cell :
    (sameSheetTransfer [[Cell.str "h", Cell.str "x"],
        [Cell.empty, Cell.str "y"]] [] = [[Cell.empty, Cell.str "y"]]) ∧
    ¬ (∀ r : Nat,
        cellv (sameSheetTransfer [[Cell.str "h", Cell.str "x"],
          [Cell.empty, Cell.str "y"]] []) r 0 ≠ Cell.empty ↔ r < 0 + 1) :=
  ⟨rfl, fun h => (h 0).mpr (by decide) (by decide)⟩

/-- C2 amended: the conclusion holds under the additional hypothesis —
forced by the counterexample — that every data row of the source has a
non-empty first cell, with row equality read over the source columns.
Destination rows and columns are 0-based here (row index r models
spreadsheet row r+1): a destination whose column 1 is populated exactly on
rows 0..N-1 and a source of a header plus M data rows give, after
_execute_same_sheet_transfer, a destination whose column 1 is populated
exactly on rows 0..N+M-1, and whose rows N..N+M-1 hold, in order and over
every source column, the cells of source rows 1..M (0-based), with every
date cell rewritten to its dd/mm/yyyy text and every other value
unchanged. -/
theorem C2_amended_append_after_last_row (src dst : Sheet) (N M : Nat)
    (hdst : ∀ r : Nat, cellv dst r 0 ≠ Cell.empty ↔ r < N)
    (hsrc : src.length = M + 1)
    (hdata : ∀ k : Nat, k < M → cellv src (k + 1) 0 ≠ Cell.empty) :
    (∀ r : Nat,
      cellv (sameSheetTransfer src dst) r 0 ≠ Cell.empty ↔ r < N + M) ∧
    (∀ k j : Nat, k < M → j < maxWidth src →
      cellv (sameSheetTransfer src dst) (N + k) j =
        fmtCell (cellv src (k + 1) j)) := by
  cases src with
  | nil => simp at hsrc
  | cons h0 tail =>
    have htl : tail.length = M := by simpa using hsrc
    have hprows : (iterRowsVals (h0 :: tail)).drop 1 =
        tail.map (fun r => padTo r (maxWidth (h0 :: tail))) := by
      simp [iterRowsVals]
    have hlenp : ((iterRowsVals (h0 :: tail)).drop 1).length = M := by
      rw [hprows]
      simpa using htl
    have hrowk : ∀ k : Nat, k < M →
        nthD ((iterRowsVals (h0 :: tail)).drop 1) k [] =
          padTo (nthD tail k []) (maxWidth (h0 :: tail)) := by
      intro k hk
      rw [hprows]
      have hklen : k <
          (tail.map (fun r => padTo r (maxWidth (h0 :: tail)))).length := by
        simpa [htl] using hk
      rw [nthD_lt_irrel _ k [] (padTo [] (maxWidth (h0 :: tail))) hklen]
      exact nthD_map (fun r => padTo r (maxWidth (h0 :: tail))) tail k []
    have hrowlen : ∀ k : Nat, k < M →
        (nthD ((iterRowsVals (h0 :: tail)).drop 1) k []).length =
          maxWidth (h0 :: tail) := by
      intro k hk
      rw [hrowk k hk]
      apply padTo_length
      apply length_le_maxWidth
      exact List.mem_cons_of_mem h0 (nthD_mem tail k [] (by omega))
    have hss : sameSheetTransfer (h0 :: tail) dst =
        appendRows0 dst N ((iterRowsVals (h0 :: tail)).drop 1) := by
      rw [sameSheetTransfer, firstEmptyIdx_eq dst N hdst]
    have hcontent : ∀ k j : Nat, k < M → j < maxWidth (h0 :: tail) →
        cellv (sameSheetTransfer (h0 :: tail) dst) (N + k) j =
          fmtCell (cellv (h0 :: tail) (k + 1) j) := by
      intro k j hk hj
      rw [hss, cellv_appendRows0_at _ dst N k j (by rw [hlenp]; exact hk)
          (by rw [hrowlen k hk]; exact hj),
        hrowk k hk, nthD_padTo _ _ j hj]
      rfl
    refine ⟨?_, hcontent⟩
    intro r
    rcases Nat.lt_or_ge r N with hr | hr
    · rw [hss, cellv_appendRows0_lt _ dst N r 0 hr]
      constructor
      · intro _
        omega
      · intro _
        exact (hdst r).mpr hr
    · rcases Nat.lt_or_ge r (N + M) with hr2 | hr2
      · obtain ⟨k, rfl⟩ : ∃ k, r = N + k := ⟨r - N, by omega⟩
        have hk : k < M := by omega
        have hne0 : cellv (h0 :: tail) (k + 1) 0 ≠ Cell.empty := hdata k hk
        have hrow0 : nthD tail k [] ≠ [] := by
          intro hcon
          apply hne0
          show nthD (nthD tail k []) 0 Cell.empty = Cell.empty
          rw [hcon]
          rfl
        have h0W : 0 < maxWidth (h0 :: tail) := by
          have hmem : nthD tail k [] ∈ (h0 :: tail) :=
            List.mem_cons_of_mem h0 (nthD_mem tail k [] (by omega))
          have hle := length_le_maxWidth (h0 :: tail) _ hmem
          have hpos : 0 < (nthD tail k []).length := List.length_pos.mpr hrow0
          omega
        rw [hcontent k 0 hk h0W]
        constructor
        · intro _
          omega
        · intro _
          exact fmtCell_ne_empty _ hne0
      · rw [hss, cellv_appendRows0_ge _ dst N r 0 (by rw [hlenp]; omega)]
        constructor
        · intro hcon
          exact absurd ((hdst r).mp hcon) (by omega)
        · intro hcon
          omega

theorem C2_amended_append_after_last_row_witness :
    ((∀ r : Nat, cellv [[Cell.str "a"]] r 0 ≠ Cell.empty ↔ r < 1) ∧
     ([[Cell.str "h"], [Cell.str "b"]] : Sheet).length = 1 + 1 ∧
     (∀ k : Nat, k < 1 →
        cellv [[Cell.str "h"], [Cell.str "b"]] (k + 1) 0 ≠ Cell.empty)) ∧
    ((∀ r : Nat,
        cellv (sameSheetTransfer [[Cell.str "h"], [Cell.str "b"]]
          [[Cell.str "a"]]) r 0 ≠ Cell.empty ↔ r < 1 + 1) ∧
     (∀ k j : Nat, k < 1 → j < maxWidth [[Cell.str "h"], [Cell.str "b"]] →
        cellv (sameSheetTransfer [[Cell.str "h"], [Cell.str "b"]]
          [[Cell.str "a"]]) (1 + k) j =
          fmtCell (cellv [[Cell.str "h"], [Cell.str "b"]] (k + 1) j))) :=
  ⟨⟨fun r => by
      cases r with
      | zero => decide
      | succ n => simp [cellv, nthD],
    rfl,
    fun k hk => by
      have hk0 : k = 0 := by omega
      subst hk0
      decide⟩,
   C2_amended_append_after_last_row [[Cell.str "h"], [Cell.str "b"]]
     [[Cell.str "a"]] 1 1
     (fun r => by
       cases r with
       | zero => decide
       | succ n => simp [cellv, nthD])
     rfl
     (fun k hk => by
       have hk0 : k = 0 := by omega
       subst hk0
       decide)⟩
